import Mathlib

/-!
Shallow embedding of the DentAI-Pro dental X-ray analyzer
(src/model_handler.py, src/ui_components.py, src/report_generator.py,
src/main_window.py).

Conventions:
* Python floats are modelled as rationals (ℚ).
* Python `dict.get` with a default is modelled by total functions returning
  the default on unknown keys; `dict.get` without a default returns `Option`.
* Fallible Python code (raising exceptions) is modelled with `Except String`.
* The torch backbone is abstracted to its 1280-dimensional feature vector;
  the classifier head (dropout p=0.2 followed by a 1280→8 linear layer),
  softmax and top-k are modelled explicitly, since the claims only depend
  on those.
-/

/-- Model of Python `str.lower()`: lowercase every character. -/
def lowercase (s : String) : String := ⟨s.data.map Char.toLower⟩

/-- Helper for `titlecase`: the Boolean tracks whether the previous
character was alphabetic (Python titlecases a cased character that follows
a non-cased one and lowercases the rest). -/
def titleAux : Bool → List Char → List Char
  | _, [] => []
  | prevAlpha, c :: cs =>
    (if prevAlpha then c.toLower else c.toUpper) :: titleAux c.isAlpha cs

/-- Model of Python `str.title()`. -/
def titlecase (s : String) : String := ⟨titleAux false s.data⟩

/-- `ModelHandler.class_names` (src/model_handler.py lines 27-36). -/
def class_names : List String :=
  ["Nil control", "condensing osteitis", "diffuse lesion", "periapical abcess",
   "periapical granuloma", "periapical widening", "pericoronitis", "radicular cyst"]

/-- `self.class_names[pred.item()]` — indexing into the class-name list. -/
def className (i : Fin 8) : String := class_names.getD i.val ""

namespace DiagnosisData

/-- The management plan bundle: the source stores it as a dict with the two
keys "Immediate Action" and "Long-term Plan" (src/ui_components.py 227-324). -/
structure ManagementPlan where
  immediateAction : List String
  longTermPlan : List String
deriving DecidableEq, Repr

/-- The 8 diagnosis keys of the `DiagnosisData` maps (lowercased class names). -/
def knownLabels : List String :=
  ["nil control", "condensing osteitis", "diffuse lesion", "periapical abcess",
   "periapical granuloma", "periapical widening", "pericoronitis", "radicular cyst"]

/-- `DiagnosisData.FINDINGS_MAP.get(label, [])` (src/ui_components.py 102-167,
looked up at line 499): per-label (icon, text) findings, empty for unknown keys. -/
def FINDINGS_MAP (label : String) : List (String × String) :=
  if label = "nil control" then
    [("✅", "Normal periapical appearance"),
     ("🦷", "Intact lamina dura"),
     ("📏", "Normal periodontal ligament space width"),
     ("🔬", "Healthy bone trabeculation"),
     ("✨", "No pathological findings"),
     ("🌿", "Normal root morphology")]
  else if label = "condensing osteitis" then
    [("🔍", "Increased bone density around apex"),
     ("⭕", "Well-defined radioopaque lesion"),
     ("🔥", "Associated with chronic low-grade inflammation"),
     ("🦴", "Localized sclerotic bone reaction"),
     ("😶", "Usually asymptomatic"),
     ("📍", "Commonly seen in mandibular posterior teeth")]
  else if label = "diffuse lesion" then
    [("⚠️", "Poorly defined radiolucent area"),
     ("↔️", "Irregular borders"),
     ("📐", "Variable size and shape"),
     ("🦷", "May involve multiple teeth"),
     ("🔨", "Possible bone destruction pattern"),
     ("❓", "Unclear demarcation from healthy bone")]
  else if label = "periapical abcess" then
    [("🎯", "Well-defined radiolucent area at apex"),
     ("💔", "Disrupted lamina dura"),
     ("📏", "Widened periodontal ligament space"),
     ("🦴", "Evidence of bone destruction"),
     ("↔️", "May show diffuse borders in acute phase"),
     ("💀", "Associated with non-vital tooth")]
  else if label = "periapical granuloma" then
    [("⭕", "Small round/oval radiolucency at apex"),
     ("📏", "Well-defined borders"),
     ("📊", "Size typically < 1cm in diameter"),
     ("💔", "Loss of lamina dura"),
     ("💀", "Associated with non-vital tooth"),
     ("🔍", "Uniform radiolucent appearance")]
  else if label = "periapical widening" then
    [("📏", "Increased PDL space width"),
     ("⚡", "Early stage of periapical pathology"),
     ("↔️", "Continuous with periodontal ligament"),
     ("🔥", "May indicate pulpal inflammation"),
     ("📊", "Usually uniform widening"),
     ("🦷", "Intact lamina dura")]
  else if label = "pericoronitis" then
    [("🦷", "Partially erupted tooth (usually third molar)"),
     ("🔬", "Soft tissue opacification over crown"),
     ("⚠️", "Possible bone loss around crown"),
     ("📏", "Widened follicular space"),
     ("📍", "May show impaction pattern"),
     ("✅", "Adjacent bone appears normal")]
  else if label = "radicular cyst" then
    [("⭕", "Large well-defined radiolucency"),
     ("📏", "Usually > 1cm in diameter"),
     ("🔲", "Corticated border"),
     ("⭕", "Round or oval shape"),
     ("↗️", "May cause root displacement"),
     ("💀", "Associated with non-vital tooth")]
  else []

/-- `DiagnosisData.RECOMMENDATIONS_MAP.get(label, [])` (src/ui_components.py
169-225, looked up at line 503): per-label (icon, text) recommendations,
empty for unknown keys. -/
def RECOMMENDATIONS_MAP (label : String) : List (String × String) :=
  if label = "nil control" then
    [("📅", "Regular dental check-ups every 6 months"),
     ("🦷", "Maintain good oral hygiene"),
     ("📸", "Routine radiographic monitoring"),
     ("📚", "Patient education on preventive care")]
  else if label = "condensing osteitis" then
    [("⚡", "Pulp vitality testing required"),
     ("🦷", "Evaluate need for endodontic treatment"),
     ("🔍", "Regular monitoring of bone density"),
     ("📊", "Assessment of adjacent teeth"),
     ("📅", "Follow-up in 3 months")]
  else if label = "diffuse lesion" then
    [("🔍", "Comprehensive clinical examination needed"),
     ("📸", "Consider CBCT imaging"),
     ("🔬", "Biopsy may be necessary"),
     ("👥", "Specialist consultation recommended"),
     ("📅", "Close monitoring required")]
  else if label = "periapical abcess" then
    [("⚡", "Immediate endodontic intervention required"),
     ("💊", "Consider antibiotic prescription"),
     ("🔨", "Possible incision and drainage"),
     ("🦷", "Root canal treatment needed"),
     ("📅", "Short-term follow-up essential")]
  else if label = "periapical granuloma" then
    [("🦷", "Root canal treatment indicated"),
     ("🔍", "Regular radiographic monitoring"),
     ("📅", "Follow-up every 3-6 months"),
     ("📊", "Assessment of healing progress"),
     ("👥", "Endodontist consultation if needed")]
  else if label = "periapical widening" then
    [("⚡", "Pulp vitality testing essential"),
     ("🔍", "Identify cause of inflammation"),
     ("🦷", "Consider occlusal adjustment"),
     ("📅", "Regular monitoring needed"),
     ("📊", "Track changes over time")]
  else if label = "pericoronitis" then
    [("🧼", "Local irrigation and debridement"),
     ("💊", "Antibiotics if systemically involved"),
     ("💉", "Pain management required"),
     ("✂️", "Consider surgical extraction"),
     ("📅", "Short-term follow-up needed")]
  else if label = "radicular cyst" then
    [("🦷", "Root canal treatment required"),
     ("✂️", "Surgical enucleation may be needed"),
     ("🔬", "Histopathological examination"),
     ("📸", "Regular radiographic monitoring"),
     ("👥", "Oral surgeon consultation recommended")]
  else []

/-- `DiagnosisData.MANAGEMENT_MAP.get(label)` (src/ui_components.py 227-324,
looked up at line 448 without a default and at src/report_generator.py line
203 with default `{}`): `none` models both `None` and the empty dict `{}`
(a value with neither of the two plan keys). -/
def MANAGEMENT_MAP (label : String) : Option ManagementPlan :=
  if label = "nil control" then
    some ⟨["• Document baseline radiographic appearance",
           "• Record current dental status",
           "• Check oral hygiene status"],
          ["• Regular dental check-ups",
           "• Preventive care measures",
           "• Patient education"]⟩
  else if label = "condensing osteitis" then
    some ⟨["• Pulp vitality testing",
           "• Pain assessment",
           "• Evaluate need for endodontic treatment"],
          ["• Monitor bone density changes",
           "• Regular radiographic assessment",
           "• Address primary inflammation source"]⟩
  else if label = "diffuse lesion" then
    some ⟨["• Comprehensive examination",
           "• Additional imaging (CBCT)",
           "• Consider biopsy"],
          ["• Regular monitoring",
           "• Specialist referral if needed",
           "• Treatment based on biopsy results"]⟩
  else if label = "periapical abcess" then
    some ⟨["• Emergency drainage if needed",
           "• Antibiotic prescription",
           "• Pain management"],
          ["• Complete root canal treatment",
           "• Regular follow-up",
           "• Monitor healing progress"]⟩
  else if label = "periapical granuloma" then
    some ⟨["• Start root canal treatment",
           "• Pain management if needed",
           "• Assess tooth restorability"],
          ["• Complete endodontic therapy",
           "• Regular radiographic assessment",
           "• Monitor healing"]⟩
  else if label = "periapical widening" then
    some ⟨["• Pulp vitality testing",
           "• Identify inflammation cause",
           "• Occlusal analysis"],
          ["• Monitor PDL width changes",
           "• Regular follow-up",
           "• Address contributing factors"]⟩
  else if label = "pericoronitis" then
    some ⟨["• Local debridement",
           "• Prescribe antibiotics if needed",
           "• Pain management"],
          ["• Evaluate for extraction",
           "• Improve oral hygiene",
           "• Regular monitoring"]⟩
  else if label = "radicular cyst" then
    some ⟨["• Start root canal treatment",
           "• Plan surgical intervention",
           "• Pain management if needed"],
          ["• Complete endodontic therapy",
           "• Surgical enucleation",
           "• Regular radiographic monitoring"]⟩
  else none

end DiagnosisData

/-!  ## Case presentation (src/ui_components.py, class ImageCard)  -/

/-- The data an `ImageCard` widget stores (src/ui_components.py 329-334):
`primary_diagnosis` is `predictions[0][0].lower()` when the list is
non-empty and the string `"unknown"` otherwise. -/
structure ImageCard where
  image_path : String
  predictions : List (String × ℚ)
  primary_diagnosis : String

/-- `ImageCard.__init__` (src/ui_components.py 329-334). -/
def ImageCard.make (image_path : String) (predictions : List (String × ℚ)) : ImageCard :=
  { image_path := image_path
    predictions := predictions
    primary_diagnosis :=
      match predictions with
      | [] => "unknown"
      | (l, _) :: _ => lowercase l }

/-- The observable content the card renders in `setup_ui`
(src/ui_components.py 336-355 and the `_add_*_section` helpers):
`management_section` is `none` when `_add_management_section` returns early
(lines 448-450) and `recommendations_section` is `none` when
`_add_recommendations_section` skips the group (lines 482-483). -/
structure CardView where
  diagnosis_header : String
  findings : List String
  confidence_display : ℚ
  management_section : Option DiagnosisData.ManagementPlan
  recommendations_section : Option (List String)

/-- `ImageCard.setup_ui` and its section helpers (src/ui_components.py
336-503); `confidence_display` is `predictions[0][1] * 100 if
self.predictions else 0.0` (line 438). -/
def ImageCard.setupView (c : ImageCard) : CardView :=
  { diagnosis_header := "🔍 Diagnosis: " ++ titlecase c.primary_diagnosis
    findings := (DiagnosisData.FINDINGS_MAP c.primary_diagnosis).map
      (fun it => it.1 ++ " " ++ it.2)
    confidence_display :=
      match c.predictions with
      | [] => 0
      | (_, conf) :: _ => conf * 100
    management_section := DiagnosisData.MANAGEMENT_MAP c.primary_diagnosis
    recommendations_section :=
      let recs := DiagnosisData.RECOMMENDATIONS_MAP c.primary_diagnosis
      if recs.isEmpty then none
      else some (recs.map (fun it => it.1 ++ " " ++ it.2)) }

/-!  ## Report exporter (src/report_generator.py)  -/

/-- The case dict built by `prepare_case_data` (src/report_generator.py
195-204).  The `management` field models
`DiagnosisData.MANAGEMENT_MAP.get(image_card.primary_diagnosis, {})`:
`none` is the `{}` default (a dict with neither plan key). -/
structure PreparedCase where
  image_path : String
  diagnosis : String
  confidence : ℚ
  findings : List String
  recommendations : List (String × String)
  management : Option DiagnosisData.ManagementPlan

/-- `prepare_case_data` (src/report_generator.py 195-204).  The expression
`image_card.predictions[0][1]` raises `IndexError` on an empty prediction
list, hence the `Except`. -/
def prepare_case_data (c : ImageCard) : Except String PreparedCase :=
  match c.predictions with
  | [] => Except.error "IndexError: list index out of range"
  | (_, conf) :: _ =>
    Except.ok
      { image_path := c.image_path
        diagnosis := titlecase c.primary_diagnosis
        confidence := conf * 100
        findings := (DiagnosisData.FINDINGS_MAP c.primary_diagnosis).map
          (fun it => it.1 ++ " " ++ it.2)
        recommendations := DiagnosisData.RECOMMENDATIONS_MAP c.primary_diagnosis
        management := DiagnosisData.MANAGEMENT_MAP c.primary_diagnosis }

/-- The image region of a rendered case section: either the scaled image or
the textual placeholder `"Error: Could not load image"` appended when
`PILImage.open` fails (src/report_generator.py 130-146). -/
inductive ImageRegion
  | rendered
  | placeholder
deriving DecidableEq, Repr

/-- One case section of the report, as produced by
`ReportGenerator._add_case` (src/report_generator.py 121-172). -/
structure CaseSection where
  image : ImageRegion
  diagnosis : String
  confidence : ℚ
  findings : List String
  management : List String × List String
  recommendations : List String

/-- The section `_add_case` renders when the management plan is present;
`imageLoads` tells whether `PILImage.open(case['image_path'])` succeeds. -/
def caseSection (c : PreparedCase) (imageLoads : Bool)
    (p : DiagnosisData.ManagementPlan) : CaseSection :=
  { image := if imageLoads then ImageRegion.rendered else ImageRegion.placeholder
    diagnosis := c.diagnosis
    confidence := c.confidence
    findings := c.findings
    management := (p.immediateAction, p.longTermPlan)
    recommendations := c.recommendations.map (fun rec => rec.1 ++ " " ++ rec.2) }

/-- `_add_case` on a prepared case (src/report_generator.py 121-172).
`prepare_case_data` always inserts the `'management'` key, so the
`if 'management' in case:` guard at line 165 is always taken; when the
stored value is the empty-dict default (`none` here),
`case['management']['Immediate Action']` at line 166 raises `KeyError`. -/
def addCase (c : PreparedCase) (imageLoads : Bool) : Except String CaseSection :=
  match c.management with
  | none => Except.error "KeyError: Immediate Action"
  | some p => Except.ok (caseSection c imageLoads p)

/-- The section `_add_case` produces on a case whose management plan is
present (the empty plan stands in where it is not, which `addCase` turns
into an error instead). -/
def renderedSection (c : PreparedCase) (imageLoads : Bool) : CaseSection :=
  caseSection c imageLoads (c.management.getD ⟨[], []⟩)

/-- The per-case loop of `ReportGenerator.generate_report`
(src/report_generator.py 87-89): the first exception aborts the build. -/
def buildStory : List (PreparedCase × Bool) → Except String (List CaseSection)
  | [] => Except.ok []
  | it :: its =>
    match addCase it.1 it.2 with
    | Except.error e => Except.error e
    | Except.ok sec =>
      match buildStory its with
      | Except.error e => Except.error e
      | Except.ok secs => Except.ok (sec :: secs)

/-- The outcome of an export attempt: the result and the list of
destination paths actually written (`doc.build` is the only write). -/
structure ExportTrace where
  result : Except String (List CaseSection)
  writes : List String

/-- `ReportGenerator.generate_report` (src/report_generator.py 72-96):
`doc.build(story)` writes `file_path` only after every case section was
built without an exception. -/
def generate_report (file_path : String) (items : List (PreparedCase × Bool)) :
    ExportTrace :=
  match buildStory items with
  | Except.error e => ⟨Except.error e, []⟩
  | Except.ok secs => ⟨Except.ok secs, [file_path]⟩

/-- The case-collection loop of `DentalXRayAnalyzer._generate_pdf_report`
(src/main_window.py 300-306): every `ImageCard` in the grid is prepared, no
filtering occurs; the first exception propagates. -/
def collectCases : List ImageCard → Except String (List PreparedCase)
  | [] => Except.ok []
  | c :: cs =>
    match prepare_case_data c with
    | Except.error e => Except.error e
    | Except.ok pc =>
      match collectCases cs with
      | Except.error e => Except.error e
      | Except.ok pcs => Except.ok (pc :: pcs)

/-- `DentalXRayAnalyzer._generate_pdf_report` (src/main_window.py 295-317):
collect all cards, raise `ValueError("No cases to export")` on an empty
collection before any generator is constructed, otherwise run the report
generator.  `loads` gives, per case, whether its image file opens at report
time. -/
def generate_pdf_report (file_path : String) (cards : List ImageCard)
    (loads : List Bool) : ExportTrace :=
  match collectCases cards with
  | Except.error e => ⟨Except.error e, []⟩
  | Except.ok cases =>
    if cases.isEmpty then ⟨Except.error "No cases to export", []⟩
    else generate_report file_path (cases.zip loads)

/-!  ## Inference engine (src/model_handler.py, class ModelHandler)  -/

/-- Rational stand-in for `Real.exp` in the softmax
(src/model_handler.py line 89): positive and strictly monotone, which are
the only properties of `exp` the pipeline observes (softmax normalizes the
values and top-k only compares them); an exact real exponential is not
representable in an executable rational embedding. -/
def expModel (x : ℚ) : ℚ := if 0 ≤ x then x + 1 else 1 / (1 - x)

/-- `F.softmax(outputs, dim=1)` over the 8 logits
(src/model_handler.py line 89). -/
def softmaxQ (z : Fin 8 → ℚ) : Fin 8 → ℚ :=
  fun i => expModel (z i) / ∑ j, expModel (z j)

/-- The comparison `torch.topk` sorts by (src/model_handler.py line 90):
descending probability, ties broken by ascending class index (stable). -/
def tkle (p : Fin 8 → ℚ) (i j : Fin 8) : Bool :=
  decide (p j < p i ∨ (p i = p j ∧ i ≤ j))

/-- The index list `torch.topk(probabilities, top_k)` returns
(src/model_handler.py line 90): the `top_k` first class indices in
descending-probability, index-stable order. -/
def topkIdx (p : Fin 8 → ℚ) (top_k : ℕ) : List (Fin 8) :=
  ((List.finRange 8).mergeSort (tkle p)).take top_k

/-- The result list built from top-k (src/model_handler.py 92-95):
`(self.class_names[pred.item()], conf.item())` pairs. -/
def ModelHandler.predictOn (logits : Fin 8 → ℚ) (top_k : ℕ) : List (String × ℚ) :=
  (topkIdx (softmaxQ logits) top_k).map
    (fun i => (className i, softmaxQ logits i))

/-- The `model_state_dict` payload of a checkpoint
(src/model_handler.py 58-63): the classifier-head weights that matter to
this embedding (the backbone is abstracted away). -/
structure StateDict where
  W : Fin 8 → Fin 1280 → ℚ
  b : Fin 8 → ℚ

/-- The loaded model: `training` is the torch train/eval mode flag
(`model.eval()` clears it, src/model_handler.py line 66). -/
structure Model where
  training : Bool
  W : Fin 8 → Fin 1280 → ℚ
  b : Fin 8 → ℚ

/-- `ModelHandler._initialize_model` (src/model_handler.py 46-71):
`none` models a checkpoint without the `model_state_dict` key, which
raises `KeyError("Invalid checkpoint format")`; on success the model is
put in evaluation mode. -/
def initialize_model (checkpoint : Option StateDict) : Except String Model :=
  match checkpoint with
  | none => Except.error "Invalid checkpoint format"
  | some sd => Except.ok { training := false, W := sd.W, b := sd.b }

/-- `torch.nn.Dropout(p=0.2)` (src/model_handler.py line 51): in training
mode it zeroes masked entries and rescales the rest by `1/(1-p)`; in
evaluation mode it is the identity. -/
def dropout (p : ℚ) (training : Bool) (mask : Fin 1280 → Bool)
    (x : Fin 1280 → ℚ) : Fin 1280 → ℚ :=
  if training then (fun i => if mask i then 0 else x i / (1 - p)) else x

/-- The classifier head `Dropout(0.2); Linear(1280, 8)` applied to the
backbone features (src/model_handler.py 50-53); `mask` is the dropout
randomness, only read in training mode. -/
def Model.forward (m : Model) (mask : Fin 1280 → Bool)
    (features : Fin 1280 → ℚ) : Fin 8 → ℚ :=
  fun o => (∑ i, m.W o i * dropout (1/5) m.training mask features i) + m.b o

/-- `ModelHandler.predict` (src/model_handler.py 84-99): forward pass,
softmax, top-k; any exception inside the `try` (notably `torch.topk` with
`top_k` larger than the 8 classes) is caught and replaced by the sentinel
`[("Error", 0.0)]`. -/
def ModelHandler.predict (m : Model) (mask : Fin 1280 → Bool)
    (image_tensor : Fin 1280 → ℚ) (top_k : ℕ) : List (String × ℚ) :=
  if top_k ≤ 8 then ModelHandler.predictOn (m.forward mask image_tensor) top_k
  else [("Error", 0)]

/-!  ## Per-image task runner (src/model_handler.py, class PredictionWorker)
     and batch controller (src/main_window.py, class DentalXRayAnalyzer)  -/

/-- The two Qt signals a `PredictionWorker` can emit
(src/model_handler.py 104-106). -/
inductive Signal
  | finished (predictions : List (String × ℚ)) (image_path : String)
  | error (message : String)

/-- Whether a signal is a completion signal. -/
def Signal.isFinished : Signal → Bool
  | Signal.finished _ _ => true
  | Signal.error _ => false

/-- Number of completion signals in a signal list. -/
def countFinished (sigs : List Signal) : ℕ := sigs.countP Signal.isFinished

/-- `PredictionWorker.run` (src/model_handler.py 114-127): `pre` is the
result of `preprocess_image` (`none` when preprocessing failed, in which
case `run` raises `ValueError("Failed to preprocess image")`, emits the
message on the error signal and then emits the synthetic
`[("Error", 0.0)]` on the finished signal). -/
def PredictionWorker.run (m : Model) (mask : Fin 1280 → Bool)
    (pre : Option (Fin 1280 → ℚ)) (top_k : ℕ) (image_path : String) :
    List Signal :=
  match pre with
  | none =>
    [Signal.error "Failed to preprocess image",
     Signal.finished [("Error", 0)] image_path]
  | some x =>
    [Signal.finished (ModelHandler.predict m mask x top_k) image_path]

/-- One submitted image task: its dropout randomness, its preprocessing
outcome and its path. -/
structure TaskSpec where
  mask : Fin 1280 → Bool
  pre : Option (Fin 1280 → ℚ)
  path : String

/-- All signals emitted by a batch of dispatched workers, before delivery
interleaving (delivery order is modelled by quantifying over permutations
of this list). -/
def batchSignals (m : Model) (top_k : ℕ) (tasks : List TaskSpec) : List Signal :=
  (tasks.map (fun t => PredictionWorker.run m t.mask t.pre top_k t.path)).flatten

/-- The Qt progress bar state (`QProgressBar`, src/main_window.py 163-179):
`minimum` is 0. -/
structure ProgressBar where
  value : ℕ
  maximum : ℕ
  visible : Bool

/-- `QProgressBar.setValue`: per the Qt contract, attempting to change the
value to one outside the minimum-maximum range has no effect. -/
def ProgressBar.setValue (b : ProgressBar) (v : ℕ) : ProgressBar :=
  if v ≤ b.maximum then { b with value := v } else b

/-- The window state the prediction callbacks touch
(src/main_window.py): the grid of image cards (stretch item excluded),
the progress bar and the warning dialogs shown. -/
structure WindowState where
  grid : List ImageCard
  progress : ProgressBar
  warnings : List String

/-- `DentalXRayAnalyzer._handle_prediction_result`
(src/main_window.py 237-249): build an `ImageCard` from the predictions as
delivered (no error-sentinel check), insert it before the stretch item,
advance the progress bar, and hide the bar when it reaches its maximum. -/
def handle_prediction_result (s : WindowState)
    (predictions : List (String × ℚ)) (image_path : String) : WindowState :=
  let bar := s.progress.setValue (s.progress.value + 1)
  let bar := if bar.value = bar.maximum then { bar with visible := false } else bar
  { s with grid := s.grid ++ [ImageCard.make image_path predictions]
           progress := bar }

/-- `DentalXRayAnalyzer._handle_prediction_error`
(src/main_window.py 251-255): show a warning dialog and advance the
progress bar. -/
def handle_prediction_error (s : WindowState) (error_message : String) :
    WindowState :=
  { s with warnings := s.warnings ++ ["Error processing image: " ++ error_message]
           progress := s.progress.setValue (s.progress.value + 1) }

/-- Delivery of one worker signal to its connected slot
(src/main_window.py 229-230). -/
def stepSignal (s : WindowState) : Signal → WindowState
  | Signal.finished preds path => handle_prediction_result s preds path
  | Signal.error msg => handle_prediction_error s msg

/-- Delivery of a sequence of worker signals to the main window. -/
def processSignals : WindowState → List Signal → WindowState :=
  List.foldl stepSignal

/-- The window state right after `load_images` submitted `n` files
(src/main_window.py 214-216): empty grid, bar visible with value 0 and
maximum `n`. -/
def initialState (n : ℕ) : WindowState :=
  { grid := [], progress := { value := 0, maximum := n, visible := true }, warnings := [] }

/-- A concrete well-formed prepared case whose image file does not open,
used to exercise the exporter on a batch with one bad image path. -/
def badImageCase : PreparedCase :=
  { image_path := "missing.png"
    diagnosis := "Radicular Cyst"
    confidence := 75
    findings := ["⭕ Large well-defined radiolucency"]
    recommendations := [("🦷", "Root canal treatment required")]
    management := some ⟨["• Start root canal treatment"],
                        ["• Complete endodontic therapy"]⟩ }

/-!  ## Theorems  -/

/-- Claim C10: constructing a case card with an empty predictions list does
not fail; the primary diagnosis defaults to "unknown", the displayed
confidence defaults to 0.0, and every knowledge-base-derived section
renders empty. -/
theorem image_card_empty_predictions_defaults (path : String) :
    (ImageCard.make path []).primary_diagnosis = "unknown" ∧
    ((ImageCard.make path []).setupView).confidence_display = 0 ∧
    ((ImageCard.make path []).setupView).findings = [] ∧
    ((ImageCard.make path []).setupView).management_section = none ∧
    ((ImageCard.make path []).setupView).recommendations_section = none :=
  ⟨rfl, rfl, rfl, rfl, rfl⟩

/-- Claim C7: exporting with an empty list of cases fails with the
empty-batch error (`ValueError("No cases to export")`) and performs no
file write at the destination path. -/
theorem export_empty_batch_no_write (file_path : String) (loads : List Bool) :
    generate_pdf_report file_path [] loads =
      ⟨Except.error "No cases to export", []⟩ := rfl

/-- Claim C5 (code bug): rendering a prepared case whose primary diagnosis
is not one of the 8 known labels does NOT complete without error —
`prepare_case_data` always stores the `'management'` key (default `{}`),
the `if 'management' in case` guard in `_add_case` therefore passes, and
`case['management']['Immediate Action']` raises `KeyError`.  Evaluated here
at the error-sentinel card (primary diagnosis "error"). -/
theorem report_add_case_unknown_label_keyerror :
    (prepare_case_data (ImageCard.make "scan.png" [("Error", 0)])).bind
        (fun c => addCase c true) =
      Except.error "KeyError: Immediate Action" := rfl

/-- Claim C1 counterexample: after the batch controller handles a failed
prediction (the sentinel result `[("Error", 0.0)]`), the case collection
passed to the report exporter contains that failed case — it is not
excluded. -/
theorem failed_case_collected_for_export_cex :
    (collectCases
        (handle_prediction_result (initialState 1) [("Error", 0)] "bad.png").grid).map
      (fun cs => cs.map PreparedCase.diagnosis) = Except.ok ["Error"] := rfl

/-- Claim C2 counterexample: the error signal handler DOES advance the
progress counter (src/main_window.py line 255) — on a fresh one-image
batch it moves the counter from 0 to 1. -/
theorem error_handler_advances_counter_cex :
    (handle_prediction_error (initialState 1) "boom").progress.value = 1 ∧
    (initialState 1).progress.value = 0 := ⟨rfl, rfl⟩

/-- Claim C3: a task whose run fails (preprocessing returned nothing, the
only exception source inside `PredictionWorker.run`) emits the error
message on the error callback and additionally the synthetic fallback pair
("Error", 0.0) on the success callback; and every dispatched task emits
exactly one completion signal, failing or not. -/
theorem task_runner_dual_signal :
    (∀ (m : Model) (mask : Fin 1280 → Bool) (top_k : ℕ) (path : String),
      PredictionWorker.run m mask none top_k path =
        [Signal.error "Failed to preprocess image",
         Signal.finished [("Error", 0)] path]) ∧
    (∀ (m : Model) (mask : Fin 1280 → Bool) (pre : Option (Fin 1280 → ℚ))
        (top_k : ℕ) (path : String),
      countFinished (PredictionWorker.run m mask pre top_k path) = 1) := by
  refine ⟨fun m mask top_k path => rfl, fun m mask pre top_k path => ?_⟩
  cases pre <;> rfl

/-- Claim C9: for a fixed loaded checkpoint and a fixed input image, two
successive predict calls on the same engine return identical results:
`_initialize_model` puts the model in evaluation mode, so the dropout
layer ignores its randomness and the forward pass is a pure function of
the input. -/
theorem predict_deterministic_in_eval (checkpoint : Option StateDict)
    (m : Model) (h : initialize_model checkpoint = Except.ok m)
    (mask₁ mask₂ : Fin 1280 → Bool) (image_tensor : Fin 1280 → ℚ)
    (top_k : ℕ) :
    ModelHandler.predict m mask₁ image_tensor top_k =
      ModelHandler.predict m mask₂ image_tensor top_k := by
  have htr : m.training = false := by
    cases checkpoint with
    | none => exact absurd h (by simp [initialize_model])
    | some sd =>
      simp only [initialize_model, Except.ok.injEq] at h
      rw [← h]
  have hfwd : m.forward mask₁ image_tensor = m.forward mask₂ image_tensor := by
    funext o
    simp [Model.forward, dropout, htr]
  rw [ModelHandler.predict, ModelHandler.predict, hfwd]

/-- Witness for C9 at a concrete checkpoint, input and pair of dropout
masks. -/
theorem predict_deterministic_in_eval_witness :
    ModelHandler.predict { training := false, W := fun _ _ => 0, b := fun _ => 0 }
        (fun _ => true) (fun _ => 0) 3 =
      ModelHandler.predict { training := false, W := fun _ _ => 0, b := fun _ => 0 }
        (fun _ => false) (fun _ => 0) 3 :=
  predict_deterministic_in_eval (some { W := fun _ _ => 0, b := fun _ => 0 })
    _ rfl _ _ _ 3

/-- Claim C6: each of the 8 known diagnosis labels has non-empty findings
and recommendations in the knowledge base; any unrecognized label yields
empty collections from both lookups, not an error. -/
theorem knowledge_base_lookup_total (label : String) :
    (label ∈ DiagnosisData.knownLabels →
      DiagnosisData.FINDINGS_MAP label ≠ [] ∧
      DiagnosisData.RECOMMENDATIONS_MAP label ≠ []) ∧
    (label ∉ DiagnosisData.knownLabels →
      DiagnosisData.FINDINGS_MAP label = [] ∧
      DiagnosisData.RECOMMENDATIONS_MAP label = []) := by
  constructor
  · intro h
    simp only [DiagnosisData.knownLabels, List.mem_cons, List.not_mem_nil,
      or_false] at h
    rcases h with h|h|h|h|h|h|h|h <;> subst h <;> exact ⟨by decide, by decide⟩
  · intro h
    simp only [DiagnosisData.knownLabels, List.mem_cons, List.not_mem_nil,
      or_false, not_or] at h
    obtain ⟨h1, h2, h3, h4, h5, h6, h7, h8⟩ := h
    exact ⟨by simp [DiagnosisData.FINDINGS_MAP, h1, h2, h3, h4, h5, h6, h7, h8],
           by simp [DiagnosisData.RECOMMENDATIONS_MAP, h1, h2, h3, h4, h5, h6, h7, h8]⟩

/-- Witness for C6 at one known label and one unrecognized label. -/
theorem knowledge_base_lookup_total_witness :
    (DiagnosisData.FINDINGS_MAP "nil control" ≠ [] ∧
     DiagnosisData.RECOMMENDATIONS_MAP "nil control" ≠ []) ∧
    (DiagnosisData.FINDINGS_MAP "cavity" = [] ∧
     DiagnosisData.RECOMMENDATIONS_MAP "cavity" = []) :=
  ⟨(knowledge_base_lookup_total "nil control").1 (by decide),
   (knowledge_base_lookup_total "cavity").2 (by decide)⟩

/-- If the collection loop succeeds on a grid ending in card `c`, the
prepared case of `c` is among the collected cases. -/
theorem collectCases_append_ok (xs : List ImageCard) (c : ImageCard)
    (cs : List PreparedCase) (h : collectCases (xs ++ [c]) = Except.ok cs)
    (pc : PreparedCase) (hpc : prepare_case_data c = Except.ok pc) : pc ∈ cs := by
  induction xs generalizing cs with
  | nil =>
    simp only [List.nil_append, collectCases, hpc] at h
    simp only [Except.ok.injEq] at h
    subst h
    exact List.mem_singleton.mpr rfl
  | cons x xs ih =>
    simp only [List.cons_append, collectCases, List.append_eq] at h
    cases hx : prepare_case_data x with
    | error e => rw [hx] at h; exact absurd h (by simp)
    | ok pcx =>
      rw [hx] at h
      cases hrest : collectCases (xs ++ [c]) with
      | error e => rw [hrest] at h; exact absurd h (by simp)
      | ok pcs =>
        rw [hrest] at h
        simp only [Except.ok.injEq] at h
        subst h
        exact List.mem_cons_of_mem _ (ih pcs hrest)

/-- Claim C1 (amended): a failed inference is delivered as the sentinel
result `[("Error", 0.0)]`; the controller constructs an ordinary
`ImageCard` from it exactly as for a success and appends it to the grid,
and whenever the export collection succeeds it includes that failed case —
no filtering excludes it from the set passed to the report exporter. -/
theorem failed_case_included_in_export (s : WindowState) (path : String) :
    (handle_prediction_result s [("Error", 0)] path).grid =
      s.grid ++ [ImageCard.make path [("Error", 0)]] ∧
    (∀ cs, collectCases (handle_prediction_result s [("Error", 0)] path).grid =
        Except.ok cs →
      ∃ c ∈ cs, c.diagnosis = "Error" ∧ c.management = none ∧
        c.image_path = path) := by
  refine ⟨rfl, fun cs hcs => ?_⟩
  have hpc : prepare_case_data (ImageCard.make path [("Error", 0)]) =
      Except.ok
        { image_path := path, diagnosis := "Error", confidence := 0 * 100,
          findings := [], recommendations := [], management := none } := rfl
  have hmem := collectCases_append_ok s.grid _ cs hcs _ hpc
  exact ⟨_, hmem, rfl, rfl, rfl⟩

/-- Witness for C1 (amended) on a one-image batch whose single task
failed. -/
theorem failed_case_included_in_export_witness :
    ∃ c ∈ [({ image_path := "bad.png", diagnosis := "Error", confidence := 0 * 100,
              findings := [], recommendations := [], management := none } :
              PreparedCase)],
      c.diagnosis = "Error" ∧ c.management = none ∧ c.image_path = "bad.png" :=
  (failed_case_included_in_export (initialState 1) "bad.png").2
    [{ image_path := "bad.png", diagnosis := "Error", confidence := 0 * 100,
       findings := [], recommendations := [], management := none }] rfl

/-- Every run of a prediction worker emits exactly one completion
signal. -/
theorem countFinished_run (m : Model) (mask : Fin 1280 → Bool)
    (pre : Option (Fin 1280 → ℚ)) (top_k : ℕ) (path : String) :
    countFinished (PredictionWorker.run m mask pre top_k path) = 1 := by
  cases pre <;> rfl

/-- A batch of N dispatched workers emits exactly N completion signals. -/
theorem countFinished_batchSignals (m : Model) (top_k : ℕ)
    (tasks : List TaskSpec) :
    countFinished (batchSignals m top_k tasks) = tasks.length := by
  induction tasks with
  | nil => rfl
  | cons t ts ih =>
    simp only [batchSignals, List.map_cons, List.flatten_cons, List.length_cons]
    rw [countFinished, List.countP_append]
    rw [countFinished] at ih
    simp only [batchSignals] at ih
    have h1 := countFinished_run m t.mask t.pre top_k t.path
    rw [countFinished] at h1
    omega

/-- A batch of N dispatched workers emits at least N signals in total. -/
theorem length_batchSignals_ge (m : Model) (top_k : ℕ) (tasks : List TaskSpec) :
    tasks.length ≤ (batchSignals m top_k tasks).length := by
  induction tasks with
  | nil => simp [batchSignals]
  | cons t ts ih =>
    simp only [batchSignals, List.map_cons, List.flatten_cons, List.length_append,
      List.length_cons]
    have h1 : 1 ≤ (PredictionWorker.run m t.mask t.pre top_k t.path).length := by
      cases t.pre <;> simp [PredictionWorker.run]
    simp only [batchSignals] at ih
    omega

/-- Both callbacks advance the clamped progress counter by one; delivering
any signal list therefore drives the displayed value to the minimum of the
maximum and the number of signals delivered. -/
theorem processSignals_progress (sigs : List Signal) (s : WindowState)
    (h : s.progress.value ≤ s.progress.maximum) :
    (processSignals s sigs).progress.value =
      min s.progress.maximum (s.progress.value + sigs.length) ∧
    (processSignals s sigs).progress.maximum = s.progress.maximum := by
  induction sigs generalizing s with
  | nil =>
    refine ⟨?_, rfl⟩
    simp only [processSignals, List.foldl_nil, List.length_nil, Nat.add_zero]
    exact (Nat.min_eq_right h).symm
  | cons sig rest ih =>
    have hstep : (stepSignal s sig).progress.value =
        (if s.progress.value + 1 ≤ s.progress.maximum then s.progress.value + 1
         else s.progress.value) ∧
        (stepSignal s sig).progress.maximum = s.progress.maximum := by
      cases sig with
      | finished preds path =>
        simp only [stepSignal, handle_prediction_result, ProgressBar.setValue]
        split
        · split <;> exact ⟨rfl, rfl⟩
        · split <;> exact ⟨rfl, rfl⟩
      | error msg =>
        simp only [stepSignal, handle_prediction_error, ProgressBar.setValue]
        split <;> exact ⟨rfl, rfl⟩
    obtain ⟨hv, hm⟩ := hstep
    have h2 : (stepSignal s sig).progress.value ≤ (stepSignal s sig).progress.maximum := by
      rw [hv, hm]
      split <;> omega
    obtain ⟨ih1, ih2⟩ := ih (stepSignal s sig) h2
    have hfold : processSignals s (sig :: rest) = processSignals (stepSignal s sig) rest := rfl
    rw [hfold, ih1, ih2, hv, hm, List.length_cons]
    constructor
    · split <;> omega
    · rfl

/-- Claim C2 (amended): submitting N image tasks yields exactly N
completion signals under any delivery order, and the progress counter ends
at N — but only because `QProgressBar` ignores attempts to move past its
maximum: the error signal handler itself also advances the counter by one
(whenever it is below the maximum), so a failing task advances the counter
twice rather than relying on its paired completion signal alone. -/
theorem batch_completion_count_amended (m : Model) (top_k : ℕ)
    (tasks : List TaskSpec) (sigs : List Signal)
    (hperm : sigs.Perm (batchSignals m top_k tasks)) :
    countFinished sigs = tasks.length ∧
    (processSignals (initialState tasks.length) sigs).progress.value =
      tasks.length ∧
    (∀ (s : WindowState) (msg : String),
      s.progress.value < s.progress.maximum →
      (handle_prediction_error s msg).progress.value = s.progress.value + 1) := by
  refine ⟨?_, ?_, ?_⟩
  · rw [countFinished, hperm.countP_eq, ← countFinished,
      countFinished_batchSignals]
  · obtain ⟨h1, -⟩ := processSignals_progress sigs (initialState tasks.length)
      (Nat.zero_le _)
    rw [h1]
    have hlen : sigs.length = (batchSignals m top_k tasks).length :=
      hperm.length_eq
    have hge := length_batchSignals_ge m top_k tasks
    simp only [initialState, Nat.zero_add]
    omega
  · intro s msg h
    simp only [handle_prediction_error, ProgressBar.setValue]
    rw [if_pos (by omega)]

/-- Witness for C2 (amended): one submitted task that fails, signals
delivered in emission order. -/
theorem batch_completion_count_amended_witness :
    countFinished (batchSignals ⟨false, fun _ _ => 0, fun _ => 0⟩ 3
        [⟨fun _ => false, none, "a.png"⟩]) = 1 ∧
    (processSignals (initialState 1)
        (batchSignals ⟨false, fun _ _ => 0, fun _ => 0⟩ 3
          [⟨fun _ => false, none, "a.png"⟩])).progress.value = 1 ∧
    (∀ (s : WindowState) (msg : String),
      s.progress.value < s.progress.maximum →
      (handle_prediction_error s msg).progress.value = s.progress.value + 1) :=
  batch_completion_count_amended ⟨false, fun _ _ => 0, fun _ => 0⟩ 3
    [⟨fun _ => false, none, "a.png"⟩] _ (List.Perm.refl _)

/-- The exponential stand-in is positive, like the real exponential. -/
theorem expModel_pos (x : ℚ) : 0 < expModel x := by
  rw [expModel]
  split
  · linarith
  · have hx : x < 0 := by linarith [not_le.mp (by assumption)]
    have : (0 : ℚ) < 1 - x := by linarith
    exact div_pos one_pos this

/-- Each softmax output lies in the unit interval. -/
theorem softmaxQ_mem_unit (z : Fin 8 → ℚ) (i : Fin 8) :
    0 ≤ softmaxQ z i ∧ softmaxQ z i ≤ 1 := by
  have hpos : ∀ j : Fin 8, 0 < expModel (z j) := fun j => expModel_pos _
  have hsum : 0 < ∑ j, expModel (z j) :=
    Finset.sum_pos (fun j _ => hpos j) ⟨0, Finset.mem_univ 0⟩
  constructor
  · exact div_nonneg (hpos i).le hsum.le
  · rw [softmaxQ, div_le_one hsum]
    exact Finset.single_le_sum (fun j _ => (hpos j).le) (Finset.mem_univ i)

/-- The top-k comparison is transitive. -/
theorem tkle_trans (p : Fin 8 → ℚ) :
    ∀ a b c, tkle p a b = true → tkle p b c = true → tkle p a c = true := by
  intro a b c hab hbc
  simp only [tkle, decide_eq_true_eq] at hab hbc ⊢
  rcases hab with h1 | ⟨he1, hi1⟩
  · rcases hbc with h2 | ⟨he2, hi2⟩
    · exact Or.inl (h2.trans h1)
    · exact Or.inl (he2 ▸ h1)
  · rcases hbc with h2 | ⟨he2, hi2⟩
    · exact Or.inl (by rw [he1]; exact h2)
    · exact Or.inr ⟨he1.trans he2, hi1.trans hi2⟩

/-- The top-k comparison is total. -/
theorem tkle_total (p : Fin 8 → ℚ) :
    ∀ a b, (tkle p a b || tkle p b a) = true := by
  intro a b
  simp only [tkle, Bool.or_eq_true, decide_eq_true_eq]
  rcases lt_trichotomy (p a) (p b) with h | h | h
  · exact Or.inr (Or.inl h)
  · rcases le_total a b with hi | hi
    · exact Or.inl (Or.inr ⟨h, hi⟩)
    · exact Or.inr (Or.inr ⟨h.symm, hi⟩)
  · exact Or.inl (Or.inl h)

/-- The selected index list is sorted by strictly descending probability
with ties broken by ascending original class index. -/
theorem topkIdx_pairwise (p : Fin 8 → ℚ) (k : ℕ) :
    (topkIdx p k).Pairwise
      (fun i j => p j < p i ∨ (p i = p j ∧ i < j)) := by
  have hs := List.sorted_mergeSort (tkle_trans p) (tkle_total p)
    (List.finRange 8)
  have hnd : ((List.finRange 8).mergeSort (tkle p)).Nodup :=
    ((List.mergeSort_perm (List.finRange 8) (tkle p)).symm).nodup
      (List.nodup_finRange 8)
  have hcomb := hs.and hnd
  have himp : ((List.finRange 8).mergeSort (tkle p)).Pairwise
      (fun i j => p j < p i ∨ (p i = p j ∧ i < j)) := by
    refine hcomb.imp ?_
    rintro a b ⟨hle, hne⟩
    simp only [tkle, decide_eq_true_eq] at hle
    rcases hle with h | ⟨he, hi⟩
    · exact Or.inl h
    · exact Or.inr ⟨he, lt_of_le_of_ne hi hne⟩
  exact himp.sublist (List.take_sublist k _)

/-- Claim C4: for every valid 3-channel input (any feature vector reaching
the classifier head) and `top_k ≤ 8`, `predict` returns exactly `top_k`
(label, confidence) pairs, every confidence lies in [0, 1], the list is
sorted by non-increasing confidence, and the selected class indices break
confidence ties by original class index order (stable top-k). -/
theorem predict_topk_sorted_bounded (m : Model) (mask : Fin 1280 → Bool)
    (image_tensor : Fin 1280 → ℚ) (top_k : ℕ) (hk : top_k ≤ 8) :
    (ModelHandler.predict m mask image_tensor top_k).length = top_k ∧
    (∀ pair ∈ ModelHandler.predict m mask image_tensor top_k,
      0 ≤ pair.2 ∧ pair.2 ≤ 1) ∧
    (ModelHandler.predict m mask image_tensor top_k).Pairwise
      (fun a b => b.2 ≤ a.2) ∧
    (topkIdx (softmaxQ (m.forward mask image_tensor)) top_k).Pairwise
      (fun i j =>
        softmaxQ (m.forward mask image_tensor) j <
            softmaxQ (m.forward mask image_tensor) i ∨
        (softmaxQ (m.forward mask image_tensor) i =
            softmaxQ (m.forward mask image_tensor) j ∧ i < j)) := by
  have hpred : ModelHandler.predict m mask image_tensor top_k =
      ModelHandler.predictOn (m.forward mask image_tensor) top_k := by
    rw [ModelHandler.predict, if_pos hk]
  refine ⟨?_, ?_, ?_, topkIdx_pairwise _ _⟩
  · rw [hpred, ModelHandler.predictOn, List.length_map, topkIdx,
      List.length_take, List.length_mergeSort, List.length_finRange]
    omega
  · intro pair hmem
    rw [hpred, ModelHandler.predictOn] at hmem
    obtain ⟨i, hi, rfl⟩ := List.mem_map.mp hmem
    exact softmaxQ_mem_unit _ i
  · rw [hpred, ModelHandler.predictOn]
    refine List.Pairwise.map _ ?_
      (topkIdx_pairwise (softmaxQ (m.forward mask image_tensor)) top_k)
    rintro a b (h | ⟨he, -⟩)
    · exact h.le
    · exact he.ge

/-- Witness for C4 at a concrete model, input and `top_k = 3`. -/
theorem predict_topk_sorted_bounded_witness :
    (ModelHandler.predict ⟨false, fun _ _ => 0, fun _ => 0⟩ (fun _ => false)
        (fun _ => 0) 3).length = 3 ∧
    (∀ pair ∈ ModelHandler.predict ⟨false, fun _ _ => 0, fun _ => 0⟩
        (fun _ => false) (fun _ => 0) 3, 0 ≤ pair.2 ∧ pair.2 ≤ 1) ∧
    (ModelHandler.predict ⟨false, fun _ _ => 0, fun _ => 0⟩ (fun _ => false)
        (fun _ => 0) 3).Pairwise (fun a b => b.2 ≤ a.2) ∧
    (topkIdx (softmaxQ ((Model.mk false (fun _ _ => 0) (fun _ => 0)).forward
        (fun _ => false) (fun _ => 0))) 3).Pairwise
      (fun i j =>
        softmaxQ ((Model.mk false (fun _ _ => 0) (fun _ => 0)).forward
            (fun _ => false) (fun _ => 0)) j <
          softmaxQ ((Model.mk false (fun _ _ => 0) (fun _ => 0)).forward
            (fun _ => false) (fun _ => 0)) i ∨
        (softmaxQ ((Model.mk false (fun _ _ => 0) (fun _ => 0)).forward
            (fun _ => false) (fun _ => 0)) i =
          softmaxQ ((Model.mk false (fun _ _ => 0) (fun _ => 0)).forward
            (fun _ => false) (fun _ => 0)) j ∧ i < j)) :=
  predict_topk_sorted_bounded ⟨false, fun _ _ => 0, fun _ => 0⟩
    (fun _ => false) (fun _ => 0) 3 (by decide)

/-- `_add_case` succeeds on every case whose management plan is present,
producing the fully rendered section. -/
theorem addCase_isSome (c : PreparedCase) (b : Bool)
    (h : c.management.isSome = true) :
    addCase c b = Except.ok (renderedSection c b) := by
  obtain ⟨p, hp⟩ := Option.isSome_iff_exists.mp h
  rw [addCase, renderedSection, hp]
  rfl

/-- The report body builds completely when every case carries a management
plan. -/
theorem buildStory_all_ok (items : List (PreparedCase × Bool))
    (h : ∀ it ∈ items, it.1.management.isSome = true) :
    buildStory items =
      Except.ok (items.map (fun it => renderedSection it.1 it.2)) := by
  induction items with
  | nil => rfl
  | cons it its ih =>
    rw [buildStory, addCase_isSome it.1 it.2 (h it (List.mem_cons_self it its)),
      ih (fun x hx => h x (List.mem_cons_of_mem it hx)), List.map_cons]

/-- Claim C8: on a batch where exactly one case's image path fails to
load, the export still produces a complete document — the failing case's
image region is replaced by the textual placeholder, its remaining
sections are rendered, and every other case is fully rendered. -/
theorem export_one_bad_image_placeholder (file_path : String)
    (pre post : List PreparedCase) (bad : PreparedCase)
    (hmg : ∀ c ∈ pre ++ bad :: post, c.management.isSome = true) :
    generate_report file_path
        (pre.map (fun c => (c, true)) ++
          (bad, false) :: post.map (fun c => (c, true))) =
      ⟨Except.ok (pre.map (fun c => renderedSection c true) ++
          renderedSection bad false :: post.map (fun c => renderedSection c true)),
        [file_path]⟩ ∧
    (renderedSection bad false).image = ImageRegion.placeholder ∧
    (∀ c ∈ pre ++ post, (renderedSection c true).image = ImageRegion.rendered) := by
  have hitems : ∀ it ∈ (pre.map (fun c => (c, true)) ++
      (bad, false) :: post.map (fun c => (c, true))),
      it.1.management.isSome = true := by
    intro it hit
    rcases List.mem_append.mp hit with h | h
    · obtain ⟨c, hc, rfl⟩ := List.mem_map.mp h
      exact hmg c (List.mem_append.mpr (Or.inl hc))
    · rcases List.mem_cons.mp h with h | h
      · subst h
        exact hmg bad (by simp)
      · obtain ⟨c, hc, rfl⟩ := List.mem_map.mp h
        exact hmg c (by simp [hc])
  refine ⟨?_, rfl, fun c hc => rfl⟩
  rw [generate_report, buildStory_all_ok _ hitems]
  simp only [List.map_append, List.map_cons, List.map_map]
  rfl

/-- Witness for C8: a single-case batch whose only case has an invalid
image path. -/
theorem export_one_bad_image_placeholder_witness :
    generate_report "report.pdf"
        (List.map (fun c => (c, true)) [] ++
          (badImageCase, false) :: List.map (fun c => (c, true)) []) =
      ⟨Except.ok (List.map (fun c => renderedSection c true) [] ++
          renderedSection badImageCase false ::
            List.map (fun c => renderedSection c true) []),
        ["report.pdf"]⟩ ∧
    (renderedSection badImageCase false).image = ImageRegion.placeholder ∧
    (∀ c ∈ ([] : List PreparedCase) ++ [],
      (renderedSection c true).image = ImageRegion.rendered) :=
  export_one_bad_image_placeholder "report.pdf" [] [] badImageCase (by decide)
